import Mathlib

/-!
Shallow embedding of the Teia multisig front-end's session state controller
(the `MultisigContextProvider` component) and of the generation structure of
its refresh operations.  Each definition mirrors one function of the source
component; collaborator calls (chain queries, wallet calls, IPFS uploads,
contract entry-point sends) are recorded in an explicit call log, and the
responses of the collaborators are supplied by an `Env` oracle so that the
controller itself stays a pure function.
-/

namespace Multisig

/-- Tezos addresses are plain strings in the front-end. -/
abbrev Address := String

/-- JavaScript truthiness of a string: the empty string is falsy. -/
def isTruthy (s : String) : Bool := s ≠ ""

/-- JavaScript `a || b` on an optional string (used for
`window.localStorage.multisigContractAddress || DEFAULT_CONTRACT_ADDRESS`). -/
def jsOr : Option String → String → String
  | none, d => d
  | some s, d => if s = "" then d else s

/-- JavaScript `>` against a possibly-undefined number: `x > undefined`
evaluates to `false` (NaN comparison), which is how
`totalAmount > this.state.balance` behaves before the balance is loaded. -/
def jsGtOpt (a : Int) : Option Int → Bool
  | none => false
  | some b => a > b

/-- JavaScript truthiness of a possibly-undefined string value. -/
def optTruthy : Option String → Bool
  | none => false
  | some s => s ≠ ""

/-- The multisig contract storage, as read by the controller: the user list,
the numeric parameters, and the big-map identifiers for proposals and votes
(the controller only ever passes those identifiers to `getBigmapKeys` /
`getUserVotes`). -/
structure Storage where
  users : List Address
  minimum_votes : Int
  expiration_time : Int
  proposalsId : Nat
  votesId : Nat
deriving Repr, DecidableEq

/-- One entry of a mutez-transfer proposal payload. -/
structure Transfer where
  destination : Address
  amount : Int
deriving Repr, DecidableEq

/-- The parameters of `originate`: `{ name, users, minimumVotes, expirationTime }`. -/
structure OriginateParams where
  name : String
  users : List Address
  minimumVotes : Int
  expirationTime : Int
deriving Repr, DecidableEq

/-- A collaborator call made by the controller: chain queries, wallet calls,
IPFS uploads and contract entry-point sends. -/
inductive Call where
  | getSimilarContractAddresses (addr : Address)
  | getContractStorage (addr : Address)
  | getBalance (addr : Address)
  | getUserAliases (users : List Address)
  | getBigmapKeys (bigmapId : Nat)
  | getUserVotes (user : Option Address) (bigmapId : Nat)
  | getContract (addr : Address)
  | requestPermissions
  | getUserAddress
  | clearActiveAccount
  | contractSend (entryPoint : String)
  | confirmation
  | ipfsAdd
  | walletOriginate
deriving Repr, DecidableEq

/-- Oracle for the collaborators' responses.  Proposals lists, alias maps and
vote slices are opaque snapshot tokens (`Nat`): the controller never inspects
their contents, it only stores and republishes them. -/
structure Env where
  validateAddress : Address → Nat
  getSimilarContractAddresses : Address → List Address
  getContractStorage : Address → Option Storage
  getBalance : Address → Int
  getUserAliases : List Address → Nat
  getBigmapKeys : Nat → Nat
  getUserVotes : Option Address → Nat → Nat
  getContract : Address → Option Unit
  activeAddress : Option Address
  sendSucceeds : Bool
  ipfsAddResult : Option String

/-- The component state (`this.state`), one field per state parameter of the
source constructor, plus the persisted local-storage slot written by
`setContractAddress`. -/
structure MState where
  userAddress : Option Address
  contractAddresses : Option (List Address)
  contractAddress : Address
  storage : Option Storage
  balance : Option Int
  userAliases : Option Nat
  proposals : Option Nat
  userVotes : Option Nat
  contract : Option Unit
  informationMessage : Option String
  confirmationMessage : Option String
  errorMessage : Option String
  localStorageAddr : Option Address
deriving Repr, DecidableEq

/-- Result of running one controller operation: the final state, the list of
collaborator calls it performed, and whether an uncaught JavaScript exception
(e.g. a `TypeError`) escaped the operation. -/
structure OpResult where
  state : MState
  calls : List Call
  threw : Bool
deriving Repr, DecidableEq

/-- The constructor's initial state: every field `undefined` except the
contract address, which is the persisted local-storage value or the
configured default. -/
def initialState (persisted : Option Address) (defaultAddr : Address) : MState :=
  { userAddress := none
    contractAddresses := none
    contractAddress := jsOr persisted defaultAddr
    storage := none
    balance := none
    userAliases := none
    proposals := none
    userVotes := none
    contract := none
    informationMessage := none
    confirmationMessage := none
    errorMessage := none
    localStorageAddr := persisted }

/-- `setInformationMessage`: overwrites the information message only. -/
def setInformationMessage (s : MState) (message : Option String) : MState :=
  { s with informationMessage := message }

/-- `setConfirmationMessage`: overwrites the confirmation message only. -/
def setConfirmationMessage (s : MState) (message : Option String) : MState :=
  { s with confirmationMessage := message }

/-- `setErrorMessage`: overwrites the error message only. -/
def setErrorMessage (s : MState) (message : Option String) : MState :=
  { s with errorMessage := message }

/-- The error message template of `setContractAddress`. -/
def invalidContractAddressMessage (a : Address) : String :=
  "The provided address is not a valid contract address: " ++ a

/-- The error message template of the destination/user address checks. -/
def invalidTezosAddressMessage (a : Address) : String :=
  "The provided address is not a valid tezos address: " ++ a

/-- The error message template of the token contract address check. -/
def invalidTokenAddressMessage (a : Address) : String :=
  "The provided token contract address is not a valid tezos address: " ++ a

/-- The error message of the mutez-transfer balance check. -/
def balanceExceededMessage : String :=
  "The total amount of tez to transfer is larger than the current contract balance"

/-- The error message of the minimum-votes bound check. -/
def minimumVotesBoundMessage : String :=
  "The minimum votes need to be higher than 0 and less or equal to the number of multisig users"

/-- The error message of the expiration-time check. -/
def expirationTimeMessage : String :=
  "The expiration time needs to be at least one day"

/-- The error message of the add-user duplicate check. -/
def alreadyUserMessage : String :=
  "The provided address is already a multisig user"

/-- The error message of the remove-user membership check. -/
def notUserMessage : String :=
  "The provided address is not a multisig user"

/-- The information message shown while waiting for a confirmation. -/
def waitingConfirmationMessage : String :=
  "Waiting for the operation to be confirmed..."

/-- The error message of `createTextProposal` when no IPFS path is present. -/
def textProposalNeedsIpfsMessage : String :=
  "The text proposal needs to be uploaded first to IPFS"

/-- `setContractAddress(contractAddress)`: a silent no-op when the address
equals the current selection; a validation error when the address is falsy or
does not validate as a contract address (`validateAddress(a) === 3`);
otherwise it fetches the similar contracts, the storage, the balance, the
user aliases, the proposals and the user votes for the new address, publishes
them in one state update with the cached contract handle cleared, and
persists the address in local storage.  If the storage fetch yields
`undefined`, the unguarded `storage.users` access throws. -/
def setContractAddress (env : Env) (s : MState) (contractAddress : Address) : OpResult :=
  if contractAddress = s.contractAddress then ⟨s, [], false⟩
  else if !(isTruthy contractAddress && env.validateAddress contractAddress == 3) then
    ⟨setErrorMessage s (some (invalidContractAddressMessage contractAddress)), [], false⟩
  else
    let contractAddresses := env.getSimilarContractAddresses contractAddress
    let fetched := env.getContractStorage contractAddress
    let balance := env.getBalance contractAddress
    let calls1 := [Call.getSimilarContractAddresses contractAddress,
                   Call.getContractStorage contractAddress,
                   Call.getBalance contractAddress]
    match fetched with
    | none => ⟨s, calls1, true⟩
    | some storage =>
      let userAliases := env.getUserAliases storage.users
      let proposals := env.getBigmapKeys storage.proposalsId
      let userVotes := env.getUserVotes s.userAddress storage.votesId
      ⟨{ s with contractAddresses := some contractAddresses
                contractAddress := contractAddress
                storage := some storage
                balance := some balance
                userAliases := some userAliases
                proposals := some proposals
                userVotes := some userVotes
                contract := none
                localStorageAddr := some contractAddress },
        calls1 ++ [Call.getUserAliases storage.users,
                   Call.getBigmapKeys storage.proposalsId,
                   Call.getUserVotes s.userAddress storage.votesId],
        false⟩

/-- `getContract()`: returns the cached handle if present, otherwise fetches
it for the current contract address and caches whatever came back (possibly
`undefined`). -/
def getContract (env : Env) (s : MState) : Option Unit × MState × List Call :=
  match s.contract with
  | some c => (some c, s, [])
  | none =>
    let contract := env.getContract s.contractAddress
    (contract, { s with contract := contract }, [Call.getContract s.contractAddress])

/-- `connectWallet()`: requests wallet permissions (a rejection is caught and
only logged), reads the wallet's active address (`utils.getUserAddress`,
modelled from the spec as the wallet's optional active address since
`utils.js` is not among the provided sources), stores it, and — when storage
is loaded and an address came back — refetches the user's vote slice. -/
def connectWallet (env : Env) (s : MState) : OpResult :=
  let userAddress := env.activeAddress
  let s1 := { s with userAddress := userAddress }
  let calls0 := [Call.requestPermissions, Call.getUserAddress]
  match s1.storage, userAddress with
  | some storage, some ua =>
    ⟨{ s1 with userVotes := some (env.getUserVotes (some ua) storage.votesId) },
      calls0 ++ [Call.getUserVotes (some ua) storage.votesId], false⟩
  | _, _ => ⟨s1, calls0, false⟩

/-- `disconnectWallet()`: clears the active account and resets the
user-related state parameters. -/
def disconnectWallet (s : MState) : OpResult :=
  ⟨{ s with userAddress := none, userVotes := none, contract := none },
    [Call.clearActiveAccount], false⟩

/-- `confirmOperation(operation)`: returns immediately when the operation is
`undefined`; otherwise shows the waiting information message, awaits one
confirmation (a failure is caught and only logged), and clears the
information message. -/
def confirmOperation (s : MState) (operation : Option Unit) : MState × List Call :=
  match operation with
  | none => (s, [])
  | some _ =>
    let s1 := setInformationMessage s (some waitingConfirmationMessage)
    let s2 := setInformationMessage s1 none
    (s2, [Call.confirmation])

/-- `createProposal(entry_point, parameters)`: sends the entry-point call (a
send failure is caught and only logged, leaving the operation `undefined`),
waits for the confirmation, then refetches the proposals from the current
storage's proposals big map and republishes them.  The refetch happens on the
failure path too; if the storage is `undefined` the unguarded
`this.state.storage.proposals` access throws. -/
def createProposal (env : Env) (s : MState) (entryPoint : String) : OpResult :=
  let operation : Option Unit := if env.sendSucceeds then some () else none
  let confirmed := confirmOperation s operation
  let s1 := confirmed.1
  match s1.storage with
  | none => ⟨s1, [Call.contractSend entryPoint] ++ confirmed.2, true⟩
  | some storage =>
    ⟨{ s1 with proposals := some (env.getBigmapKeys storage.proposalsId) },
      [Call.contractSend entryPoint] ++ confirmed.2 ++ [Call.getBigmapKeys storage.proposalsId],
      false⟩

/-- The common tail of every proposal-creation operation after its validation
checks: resolve (and cache) the contract handle, return silently if it is not
available, otherwise call `createProposal` on the kind-specific entry point. -/
def proposalAfterChecks (env : Env) (s : MState) (entryPoint : String) : OpResult :=
  let resolved := getContract env s
  match resolved.1 with
  | none => ⟨resolved.2.1, resolved.2.2, false⟩
  | some _ =>
    let r := createProposal env resolved.2.1 entryPoint
    ⟨r.state, resolved.2.2 ++ r.calls, r.threw⟩

/-- `createTextProposal(ipfsPath)`: rejects when no IPFS path is present,
then proceeds through the common proposal tail on `text_proposal`. -/
def createTextProposal (env : Env) (s : MState) (ipfsPath : Option String) : OpResult :=
  if !(optTruthy ipfsPath) then
    ⟨setErrorMessage s (some textProposalNeedsIpfsMessage), [], false⟩
  else
    proposalAfterChecks env s "text_proposal"

/-- The loop of `createTransferMutezProposal`: validate each destination in
order, accumulating the amounts of the already validated prefix; the first
invalid destination aborts the loop. -/
def validateTransfersAndSum (env : Env) : List Transfer → Int → Except Address Int
  | [], acc => Except.ok acc
  | t :: ts, acc =>
    if !(isTruthy t.destination && env.validateAddress t.destination == 3) then
      Except.error t.destination
    else
      validateTransfersAndSum env ts (acc + t.amount)

/-- `createTransferMutezProposal(transfers)`: validates every destination and
sums the amounts; rejects when the total exceeds the current balance (a JS
comparison, false when the balance is still `undefined`); then proceeds
through the common proposal tail on `transfer_mutez_proposal`. -/
def createTransferMutezProposal (env : Env) (s : MState) (transfers : List Transfer) : OpResult :=
  match validateTransfersAndSum env transfers 0 with
  | Except.error d =>
    ⟨setErrorMessage s (some (invalidTezosAddressMessage d)), [], false⟩
  | Except.ok totalAmount =>
    if jsGtOpt totalAmount s.balance then
      ⟨setErrorMessage s (some balanceExceededMessage), [], false⟩
    else
      proposalAfterChecks env s "transfer_mutez_proposal"

/-- The destination-validation loop of `createTransferTokenProposal`. -/
def firstInvalidDestination (env : Env) : List Transfer → Option Address
  | [] => none
  | t :: ts =>
    if !(isTruthy t.destination && env.validateAddress t.destination == 3) then
      some t.destination
    else
      firstInvalidDestination env ts

/-- `createTransferTokenProposal(tokenAddress, tokenId, transfers)`: validates
the token contract address and every destination, then proceeds through the
common proposal tail on `transfer_token_proposal`. -/
def createTransferTokenProposal (env : Env) (s : MState) (tokenAddress : Address)
    (transfers : List Transfer) : OpResult :=
  if !(isTruthy tokenAddress && env.validateAddress tokenAddress == 3) then
    ⟨setErrorMessage s (some (invalidTokenAddressMessage tokenAddress)), [], false⟩
  else
    match firstInvalidDestination env transfers with
    | some d => ⟨setErrorMessage s (some (invalidTezosAddressMessage d)), [], false⟩
    | none => proposalAfterChecks env s "transfer_token_proposal"

/-- `createMinimumVotesProposal(minimumVotes)`: rejects when
`minimumVotes <= 0 || minimumVotes > storage?.users.length`; the second
disjunct is a JS comparison against `undefined` (hence `false`) when the
storage is not loaded; then proceeds through the common proposal tail on
`minimum_votes_proposal`. -/
def createMinimumVotesProposal (env : Env) (s : MState) (minimumVotes : Int) : OpResult :=
  if minimumVotes ≤ 0 ||
      (match s.storage with
       | none => false
       | some storage => minimumVotes > (storage.users.length : Int)) then
    ⟨setErrorMessage s (some minimumVotesBoundMessage), [], false⟩
  else
    proposalAfterChecks env s "minimum_votes_proposal"

/-- `createExpirationTimeProposal(expirationTime)`: rejects non-positive
values, then proceeds through the common proposal tail on
`expiration_time_proposal`. -/
def createExpirationTimeProposal (env : Env) (s : MState) (expirationTime : Int) : OpResult :=
  if expirationTime ≤ 0 then
    ⟨setErrorMessage s (some expirationTimeMessage), [], false⟩
  else
    proposalAfterChecks env s "expiration_time_proposal"

/-- `createAddUserProposal(userAddress)`: validates the address, rejects a
duplicate user (`storage?.users.includes`, falsy — so the check passes —
when the storage is not loaded), then proceeds through the common proposal
tail on `add_user_proposal`. -/
def createAddUserProposal (env : Env) (s : MState) (userAddress : Address) : OpResult :=
  if !(isTruthy userAddress && env.validateAddress userAddress == 3) then
    ⟨setErrorMessage s (some (invalidTezosAddressMessage userAddress)), [], false⟩
  else if (match s.storage with
           | none => false
           | some storage => storage.users.contains userAddress) then
    ⟨setErrorMessage s (some alreadyUserMessage), [], false⟩
  else
    proposalAfterChecks env s "add_user_proposal"

/-- `createRemoveUserProposal(userAddress)`: validates the address, rejects an
address that is not a current user, then proceeds through the common proposal
tail on `remove_user_proposal`. -/
def createRemoveUserProposal (env : Env) (s : MState) (userAddress : Address) : OpResult :=
  if !(isTruthy userAddress && env.validateAddress userAddress == 3) then
    ⟨setErrorMessage s (some (invalidTezosAddressMessage userAddress)), [], false⟩
  else if !(match s.storage with
            | none => false
            | some storage => storage.users.contains userAddress) then
    ⟨setErrorMessage s (some notUserMessage), [], false⟩
  else
    proposalAfterChecks env s "remove_user_proposal"

/-- `voteProposal(proposalId, approval)`: resolves the contract handle
(returning silently when it is unavailable), sends `vote_proposal`, waits for
the confirmation, then refetches the proposals and the user's vote slice from
the current (unreplaced) storage and publishes both in one state update. -/
def voteProposal (env : Env) (s : MState) (proposalId : Nat) (approval : Bool) : OpResult :=
  let resolved := getContract env s
  match resolved.1 with
  | none => ⟨resolved.2.1, resolved.2.2, false⟩
  | some _ =>
    let s1 := resolved.2.1
    let operation : Option Unit := if env.sendSucceeds then some () else none
    let confirmed := confirmOperation s1 operation
    let s2 := confirmed.1
    match s2.storage with
    | none =>
      ⟨s2, resolved.2.2 ++ [Call.contractSend "vote_proposal"] ++ confirmed.2, true⟩
    | some storage =>
      ⟨{ s2 with proposals := some (env.getBigmapKeys storage.proposalsId)
                 userVotes := some (env.getUserVotes s2.userAddress storage.votesId) },
        resolved.2.2 ++ [Call.contractSend "vote_proposal"] ++ confirmed.2 ++
          [Call.getBigmapKeys storage.proposalsId,
           Call.getUserVotes s2.userAddress storage.votesId],
        false⟩

/-- `executeProposal(proposalId)`: resolves the contract handle (returning
silently when it is unavailable), sends `execute_proposal`, waits for the
confirmation, then refetches the storage, the balance, the user aliases and
the proposals — but not the user's vote slice — and publishes them in one
state update. -/
def executeProposal (env : Env) (s : MState) (proposalId : Nat) : OpResult :=
  let resolved := getContract env s
  match resolved.1 with
  | none => ⟨resolved.2.1, resolved.2.2, false⟩
  | some _ =>
    let s1 := resolved.2.1
    let operation : Option Unit := if env.sendSucceeds then some () else none
    let confirmed := confirmOperation s1 operation
    let s2 := confirmed.1
    let fetched := env.getContractStorage s2.contractAddress
    let balance := env.getBalance s2.contractAddress
    let calls2 := resolved.2.2 ++ [Call.contractSend "execute_proposal"] ++ confirmed.2 ++
      [Call.getContractStorage s2.contractAddress, Call.getBalance s2.contractAddress]
    match fetched with
    | none => ⟨s2, calls2, true⟩
    | some storage =>
      ⟨{ s2 with storage := some storage
                 balance := some balance
                 userAliases := some (env.getUserAliases storage.users)
                 proposals := some (env.getBigmapKeys storage.proposalsId) },
        calls2 ++ [Call.getUserAliases storage.users, Call.getBigmapKeys storage.proposalsId],
        false⟩

/-- `uploadMetadataToIpfs(metadata, displayUploadInformation)`: optionally
shows an information message, uploads to IPFS (a failure is caught and only
logged, leaving the result `undefined`), clears the message and returns the
optional IPFS path. -/
def uploadMetadataToIpfs (env : Env) (s : MState) (displayUploadInformation : Bool) :
    Option String × MState × List Call :=
  let s1 := if displayUploadInformation then
              setInformationMessage s (some "Uploading the json metadata to ipfs...")
            else s
  let added := env.ipfsAddResult
  let s2 := if displayUploadInformation then setInformationMessage s1 none else s1
  (added, s2, [Call.ipfsAdd])

/-- The user-address validation loop of `originate`. -/
def firstInvalidUser (env : Env) : List Address → Option Address
  | [] => none
  | u :: us =>
    if !(isTruthy u && env.validateAddress u == 3) then some u
    else firstInvalidUser env us

/-- `originate(parameters)`: validates the user list, the minimum votes and
the expiration time, uploads the metadata, sends the origination operation
and awaits it.  On an invalid user address the source (line 526) calls
`this.setErrorMessage`, which does not exist on the component instance — the
setter lives on `this.state` — so a `TypeError` escapes before any message is
set or any collaborator is called. -/
def originate (env : Env) (s : MState) (p : OriginateParams) : OpResult :=
  match firstInvalidUser env p.users with
  | some _ => ⟨s, [], true⟩
  | none =>
    if p.minimumVotes ≤ 0 || p.minimumVotes > (p.users.length : Int) then
      ⟨setErrorMessage s (some minimumVotesBoundMessage), [], false⟩
    else if p.expirationTime ≤ 0 then
      ⟨setErrorMessage s (some expirationTimeMessage), [], false⟩
    else
      let uploaded := uploadMetadataToIpfs env s false
      let s1 := uploaded.2.1
      let operation : Option Unit := if env.sendSucceeds then some () else none
      let s2 := setInformationMessage s1 (some waitingConfirmationMessage)
      let confCalls := match operation with
        | some _ => [Call.confirmation]
        | none => []
      let s3 := setInformationMessage s2 none
      ⟨s3, uploaded.2.2 ++ [Call.walletOriginate] ++ confCalls, false⟩

/-!
Generation-instrumented model of the refresh operations, for the staleness
analysis.  A generation is the index of a `getContractStorage` fetch; each
snapshot field records the generation of the storage snapshot from which it
was last fetched or derived.  The functions below mirror exactly which
`utils` fetches each source operation performs and which state fields its
single `setState` call replaces.
-/

/-- Generation tags of the snapshot fields: `gen` counts the storage fetches
performed so far, and each field records the storage generation it was last
derived from (`none` while the field is still `undefined`). -/
structure GenState where
  gen : Nat
  storageGen : Option Nat
  balanceGen : Option Nat
  aliasesGen : Option Nat
  proposalsGen : Option Nat
  userVotesGen : Option Nat
deriving Repr, DecidableEq

/-- The generation tags at component construction: nothing fetched yet. -/
def initGenState : GenState :=
  { gen := 0, storageGen := none, balanceGen := none, aliasesGen := none,
    proposalsGen := none, userVotesGen := none }

/-- Generation structure of `loadInformation`: one storage fetch; when it
succeeds the aliases and proposals are derived from it, and the user votes
too when a user address is present; when it fails only the user address,
contract list and balance are written. -/
def loadInformationGen (storageOk userPresent : Bool) (s : GenState) : GenState :=
  let g := s.gen + 1
  if storageOk then
    { gen := g, storageGen := some g, balanceGen := some g, aliasesGen := some g,
      proposalsGen := some g,
      userVotesGen := if userPresent then some g else s.userVotesGen }
  else
    { s with gen := g, storageGen := none, balanceGen := some g }

/-- Generation structure of `setContractAddress` (the refetching branch): one
storage fetch for the new address with every derived field — the user votes
included — fetched from it; the single `setState` replaces them all together.
When the storage fetch fails the unguarded `storage.users` access throws
before the `setState`, so no field is written. -/
def setContractAddressGen (storageOk : Bool) (s : GenState) : GenState :=
  let g := s.gen + 1
  if storageOk then
    { gen := g, storageGen := some g, balanceGen := some g, aliasesGen := some g,
      proposalsGen := some g, userVotesGen := some g }
  else
    { s with gen := g }

/-- Generation structure of `voteProposal`'s refresh: no storage fetch; the
proposals and the user's vote slice are refetched from the current storage
generation and published together. -/
def voteProposalGen (s : GenState) : GenState :=
  { s with proposalsGen := s.storageGen, userVotesGen := s.storageGen }

/-- Generation structure of `executeProposal`'s refresh: a fresh storage
fetch, with the balance, aliases and proposals refetched from the new
generation — but the user's vote slice left untouched. -/
def executeProposalGen (storageOk : Bool) (s : GenState) : GenState :=
  let g := s.gen + 1
  if storageOk then
    { gen := g, storageGen := some g, balanceGen := some g, aliasesGen := some g,
      proposalsGen := some g, userVotesGen := s.userVotesGen }
  else
    { s with gen := g }

/-!  Concrete fixtures used by the witness and counterexample theorems.  -/

/-- A concrete contract storage with three users. -/
def testStorage : Storage :=
  { users := ["tz1aaa", "tz1bbb", "tz1ccc"]
    minimum_votes := 2
    expiration_time := 3
    proposalsId := 11
    votesId := 12 }

/-- A concrete collaborator oracle: `tz1ValidUser` and `KT1ValidContract` are
the only addresses that validate; the contract handle resolves to nothing;
sends fail. -/
def testEnv : Env :=
  { validateAddress := fun a => if a = "tz1ValidUser" || a = "KT1ValidContract" then 3 else 0
    getSimilarContractAddresses := fun _ => []
    getContractStorage := fun _ => some testStorage
    getBalance := fun _ => 10
    getUserAliases := fun _ => 1
    getBigmapKeys := fun _ => 7
    getUserVotes := fun _ _ => 2
    getContract := fun _ => none
    activeAddress := none
    sendSucceeds := false
    ipfsAddResult := some "QmTest" }

/-- A concrete state with a loaded storage, balance and snapshot fields. -/
def loadedState : MState :=
  { initialState none "KT1Default" with
      storage := some testStorage
      balance := some 10
      userAliases := some 1
      proposals := some 5
      userVotes := some 2 }

/-!  Theorems settling the claims.  -/

/-- Helper: a record update that rewrites the `contract` field to the value it
already holds leaves the state unchanged. -/
theorem contract_none_update (s : MState) (h : s.contract = none) :
    { s with contract := none } = s := by
  cases s
  simp_all

/-- Claim C7: calling `setContractAddress` with the address that already
equals the current selection is a silent no-op: the snapshot is returned
unchanged (the same state value), no collaborator is called, and nothing is
thrown, so the operation is idempotent on the current selection. -/
theorem setContractAddress_idempotent (env : Env) (s : MState) :
    setContractAddress env s s.contractAddress = ⟨s, [], false⟩ := by
  simp [setContractAddress]

/-- Claim C1 (evaluation of the code at the failing input): `originate` on a
parameter record whose user list contains an address failing validation
throws a `TypeError` (the source calls `this.setErrorMessage`, which is
undefined on the component instance) instead of setting a validation error
message; it performs zero collaborator calls and leaves the state unchanged. -/
theorem originate_invalid_user_throws :
    originate testEnv loadedState ⟨"multisig", ["tz1bad"], 1, 7⟩ =
      ⟨loadedState, [], true⟩ := by
  decide

/-- Claim C4 counterexample: the transient message is held in three
independent state fields, so two message kinds can be present at the same
time — after setting an error message (as any failed validation does) and
then an information message (as any confirmation wait does), a reachable
state carries both simultaneously, refuting the one-at-a-time claim. -/
theorem two_message_kinds_cex :
    ((setInformationMessage (setErrorMessage (initialState none "KT1Default")
        (some "error text")) (some "info text")).errorMessage).isSome = true ∧
    ((setInformationMessage (setErrorMessage (initialState none "KT1Default")
        (some "error text")) (some "info text")).informationMessage).isSome = true := by
  decide

/-- Claim C4 amended: the transient messages live in three independent slots
(information, confirmation, error); within each kind a newly set message
overwrites the prior one of that kind (no queueing), and setting a message of
one kind leaves the other two kinds untouched — so messages of different
kinds may be present simultaneously. -/
theorem message_slots_amended :
    (∀ (s : MState) (m m' : Option String),
        setErrorMessage (setErrorMessage s m) m' = setErrorMessage s m') ∧
    (∀ (s : MState) (m m' : Option String),
        setInformationMessage (setInformationMessage s m) m' = setInformationMessage s m') ∧
    (∀ (s : MState) (m m' : Option String),
        setConfirmationMessage (setConfirmationMessage s m) m' = setConfirmationMessage s m') ∧
    (∀ (s : MState) (m : Option String),
        (setInformationMessage s m).errorMessage = s.errorMessage ∧
        (setInformationMessage s m).confirmationMessage = s.confirmationMessage) ∧
    (∀ (s : MState) (m : Option String),
        (setErrorMessage s m).informationMessage = s.informationMessage ∧
        (setErrorMessage s m).confirmationMessage = s.confirmationMessage) ∧
    (∀ (s : MState) (m : Option String),
        (setConfirmationMessage s m).informationMessage = s.informationMessage ∧
        (setConfirmationMessage s m).errorMessage = s.errorMessage) := by
  refine ⟨?_, ?_, ?_, ?_, ?_, ?_⟩ <;> intros <;>
    simp [setErrorMessage, setInformationMessage, setConfirmationMessage]

/-- Claim C3 counterexample: after an initial load (generation 1) followed by
a successful `executeProposal` (which fetches storage generation 2), the
published snapshot pairs the refreshed storage (generation 2) with a user
vote slice still fetched from storage generation 1 — `executeProposal` does
not refetch the vote slice. -/
theorem executeProposal_stale_userVotes_cex :
    (executeProposalGen true (loadInformationGen true true initGenState)).storageGen ≠
      (executeProposalGen true (loadInformationGen true true initGenState)).userVotesGen := by
  decide

/-- Claim C3 amended: after the initial load and after `setContractAddress`
every derived field — the vote slice included — carries the same storage
generation; after `voteProposal` the proposals and vote slice carry the
unreplaced storage's generation; but after `executeProposal` the storage,
balance, aliases and proposals move to the new generation while the user vote
slice keeps whatever generation it had before. -/
theorem refresh_generation_amended :
    (∀ s : GenState,
        (setContractAddressGen true s).storageGen = some (s.gen + 1) ∧
        (setContractAddressGen true s).balanceGen = (setContractAddressGen true s).storageGen ∧
        (setContractAddressGen true s).aliasesGen = (setContractAddressGen true s).storageGen ∧
        (setContractAddressGen true s).proposalsGen = (setContractAddressGen true s).storageGen ∧
        (setContractAddressGen true s).userVotesGen = (setContractAddressGen true s).storageGen) ∧
    (∀ s : GenState,
        (loadInformationGen true true s).storageGen = some (s.gen + 1) ∧
        (loadInformationGen true true s).balanceGen = (loadInformationGen true true s).storageGen ∧
        (loadInformationGen true true s).aliasesGen = (loadInformationGen true true s).storageGen ∧
        (loadInformationGen true true s).proposalsGen = (loadInformationGen true true s).storageGen ∧
        (loadInformationGen true true s).userVotesGen = (loadInformationGen true true s).storageGen) ∧
    (∀ s : GenState,
        (voteProposalGen s).storageGen = s.storageGen ∧
        (voteProposalGen s).proposalsGen = s.storageGen ∧
        (voteProposalGen s).userVotesGen = s.storageGen) ∧
    (∀ s : GenState,
        (executeProposalGen true s).storageGen = some (s.gen + 1) ∧
        (executeProposalGen true s).balanceGen = (executeProposalGen true s).storageGen ∧
        (executeProposalGen true s).aliasesGen = (executeProposalGen true s).storageGen ∧
        (executeProposalGen true s).proposalsGen = (executeProposalGen true s).storageGen ∧
        (executeProposalGen true s).userVotesGen = s.userVotesGen) := by
  refine ⟨?_, ?_, ?_, ?_⟩ <;> intro s <;>
    simp [setContractAddressGen, loadInformationGen, voteProposalGen, executeProposalGen]

/-- Claim C2 counterexample: when the contract-call send fails, `createProposal`
does not set any error transient message (the failure is only logged) and it
nevertheless refetches and republishes the proposals snapshot — at the
concrete failing run the error message stays `none` and the proposals field
changes, refuting both halves of the claim. -/
theorem createProposal_send_failure_cex :
    (createProposal testEnv loadedState "text_proposal").state.errorMessage = none ∧
    (createProposal testEnv loadedState "text_proposal").state.proposals ≠
      loadedState.proposals := by
  decide

/-- Claim C2 amended: a send failure (or a confirmation failure) is caught
and only logged: no error transient message is set, the `storage` field is
left unchanged, but the proposals list is still refetched from the unchanged
storage's proposals big map and republished; on the send-success path the
confirmation-wait information message is additionally cleared at the end. -/
theorem createProposal_failure_amended (env : Env) (s : MState) (ep : String) (st : Storage)
    (hst : s.storage = some st) :
    (env.sendSucceeds = false →
        createProposal env s ep =
          ⟨{ s with proposals := some (env.getBigmapKeys st.proposalsId) },
            [Call.contractSend ep, Call.getBigmapKeys st.proposalsId], false⟩) ∧
    (env.sendSucceeds = true →
        createProposal env s ep =
          ⟨{ s with informationMessage := none
                    proposals := some (env.getBigmapKeys st.proposalsId) },
            [Call.contractSend ep, Call.confirmation, Call.getBigmapKeys st.proposalsId],
            false⟩) := by
  constructor <;> intro h <;>
    simp [createProposal, confirmOperation, setInformationMessage, h, hst]

/-- Witness for the amended claim C2 at a concrete failing send. -/
theorem createProposal_failure_amended_witness :
    createProposal testEnv loadedState "text_proposal" =
      ⟨{ loadedState with proposals := some 7 },
        [Call.contractSend "text_proposal", Call.getBigmapKeys 11], false⟩ :=
  (createProposal_failure_amended testEnv loadedState "text_proposal" testStorage rfl).1 rfl

/-- Claim C5: when every transfer destination validates, a mutez-transfer
payload whose summed amounts exceed the held balance is rejected with the
balance error message, with zero collaborator calls and the balance field (and
every other snapshot field except the error message) unchanged; a payload
whose sum is at most the balance passes the check and proceeds to the common
proposal tail. -/
theorem createTransferMutezProposal_balance_check (env : Env) (s : MState)
    (transfers : List Transfer) (b total : Int)
    (hb : s.balance = some b)
    (hsum : validateTransfersAndSum env transfers 0 = Except.ok total) :
    (total > b →
        createTransferMutezProposal env s transfers =
          ⟨{ s with errorMessage := some balanceExceededMessage }, [], false⟩) ∧
    (total ≤ b →
        createTransferMutezProposal env s transfers =
          proposalAfterChecks env s "transfer_mutez_proposal") := by
  constructor <;> intro h <;>
    simp [createTransferMutezProposal, hsum, jsGtOpt, hb, setErrorMessage, h, not_lt.mpr]

/-- Witness for claim C5 at a concrete over-balance payload. -/
theorem createTransferMutezProposal_balance_check_witness :
    createTransferMutezProposal testEnv loadedState [⟨"tz1ValidUser", 20⟩] =
      ⟨{ loadedState with errorMessage := some balanceExceededMessage }, [], false⟩ :=
  (createTransferMutezProposal_balance_check testEnv loadedState [⟨"tz1ValidUser", 20⟩]
      10 20 rfl rfl).1 (by decide)

/-- Claim C6: with the contract storage loaded, `createMinimumVotesProposal`
passes validation exactly when `0 < v` and `v` is at most the number of users
in the storage; on a violation it sets the error message stating the bound
(higher than 0 and at most the number of multisig users), performs zero
collaborator calls, and leaves every other snapshot field — the proposals
included — unchanged; otherwise it proceeds to the common proposal tail. -/
theorem createMinimumVotesProposal_bounds (env : Env) (s : MState) (st : Storage) (v : Int)
    (hst : s.storage = some st) :
    (¬(0 < v ∧ v ≤ (st.users.length : Int)) →
        createMinimumVotesProposal env s v =
          ⟨{ s with errorMessage := some minimumVotesBoundMessage }, [], false⟩) ∧
    ((0 < v ∧ v ≤ (st.users.length : Int)) →
        createMinimumVotesProposal env s v =
          proposalAfterChecks env s "minimum_votes_proposal") := by
  constructor <;> intro h <;>
    simp [createMinimumVotesProposal, hst, setErrorMessage] <;> omega

/-- Witness for claim C6: the value 0 against a three-user storage is
rejected with the bound message and no collaborator call. -/
theorem createMinimumVotesProposal_bounds_witness :
    createMinimumVotesProposal testEnv loadedState 0 =
      ⟨{ loadedState with errorMessage := some minimumVotesBoundMessage }, [], false⟩ :=
  (createMinimumVotesProposal_bounds testEnv loadedState testStorage 0 rfl).1 (by decide)

/-- Claim C8: when the wallet connector rejects the permission request (so
the wallet reports no active address) and no identity was previously
connected, `connectWallet` leaves the whole snapshot unchanged — the identity
stays absent, no transient message of any kind is set, and the previously
loaded storage, balance and proposals stay in place; only the permission
request and the address read are performed. -/
theorem connectWallet_rejection_silent (env : Env) (s : MState)
    (hrej : env.activeAddress = none) (habs : s.userAddress = none) :
    connectWallet env s = ⟨s, [Call.requestPermissions, Call.getUserAddress], false⟩ := by
  cases hs : s.storage <;>
    simp [connectWallet, hrej, hs] <;>
    cases s <;> simp_all

/-- Witness for claim C8 at a concrete state with loaded storage. -/
theorem connectWallet_rejection_silent_witness :
    connectWallet testEnv loadedState =
      ⟨loadedState, [Call.requestPermissions, Call.getUserAddress], false⟩ :=
  connectWallet_rejection_silent testEnv loadedState rfl rfl

/-- Claim C9: while the contract storage is not yet loaded, the
storage-dependent validation checks silently pass — `createMinimumVotesProposal`
accepts every value greater than 0 regardless of magnitude (the user-count
upper bound compares against `undefined` and is false), and
`createAddUserProposal` accepts every well-formed address without the
duplicate-user check — and both proceed to the common proposal tail, whose
first collaborator call is the chain query resolving the contract handle. -/
theorem storage_absent_validation_passes (env : Env) (s : MState) (v : Int) (u : Address)
    (hst : s.storage = none) (hc : s.contract = none) :
    (0 < v →
        createMinimumVotesProposal env s v =
          proposalAfterChecks env s "minimum_votes_proposal") ∧
    ((isTruthy u && env.validateAddress u == 3) = true →
        createAddUserProposal env s u = proposalAfterChecks env s "add_user_proposal") ∧
    (proposalAfterChecks env s "minimum_votes_proposal").calls.head? =
      some (Call.getContract s.contractAddress) ∧
    (proposalAfterChecks env s "add_user_proposal").calls.head? =
      some (Call.getContract s.contractAddress) := by
  refine ⟨?_, ?_, ?_, ?_⟩
  · intro h
    simp [createMinimumVotesProposal, hst]
    omega
  · intro h
    simp [createAddUserProposal, hst, h]
  · cases henv : env.getContract s.contractAddress <;>
      simp [proposalAfterChecks, getContract, hc, henv]
  · cases henv : env.getContract s.contractAddress <;>
      simp [proposalAfterChecks, getContract, hc, henv]

/-- Witness for claim C9: with no storage loaded, the value 1000000 passes
the minimum-votes validation and the operation proceeds to the chain. -/
theorem storage_absent_validation_passes_witness :
    createMinimumVotesProposal testEnv (initialState none "KT1Default") 1000000 =
      proposalAfterChecks testEnv (initialState none "KT1Default") "minimum_votes_proposal" :=
  ((storage_absent_validation_passes testEnv (initialState none "KT1Default") 1000000
      "tz1ValidUser" rfl rfl).1) (by decide)

/-- Claim C10: when no contract handle is cached and resolving one yields
nothing, `voteProposal`, `executeProposal`, `createTextProposal` (with an
uploaded IPFS path) and the common tail of every proposal-creation operation
all return silently: the snapshot is exactly the input state, no transient
message of any kind is set, no contract entry point is invoked, and the only
collaborator call is the contract-handle resolution itself. -/
theorem getContract_none_silent_return (env : Env) (s : MState) (pid : Nat) (b : Bool)
    (path : String)
    (hc : s.contract = none) (hres : env.getContract s.contractAddress = none)
    (hp : path ≠ "") :
    voteProposal env s pid b = ⟨s, [Call.getContract s.contractAddress], false⟩ ∧
    executeProposal env s pid = ⟨s, [Call.getContract s.contractAddress], false⟩ ∧
    createTextProposal env s (some path) = ⟨s, [Call.getContract s.contractAddress], false⟩ ∧
    proposalAfterChecks env s "transfer_mutez_proposal" =
      ⟨s, [Call.getContract s.contractAddress], false⟩ := by
  have hupd := contract_none_update s hc
  refine ⟨?_, ?_, ?_, ?_⟩ <;>
    simp [voteProposal, executeProposal, createTextProposal, proposalAfterChecks,
      getContract, optTruthy, hc, hres, hp, hupd]

/-- Witness for claim C10 at a concrete state and failing resolution. -/
theorem getContract_none_silent_return_witness :
    voteProposal testEnv loadedState 5 true =
      ⟨loadedState, [Call.getContract "KT1Default"], false⟩ :=
  (getContract_none_silent_return testEnv loadedState 5 true "QmX" rfl rfl (by decide)).1

end Multisig
